import Mathlib

/-!
Verification of the three RunPod serverless handlers of this repository
(TripoSR `runpod-handler/handler.py`, SF3D `runpod-handler-sf3d/handler.py`,
Hunyuan3D-2 `runpod-handler-hunyuan3d/handler.py`).

The handlers are straight-line Python glue: read a JSON job, validate and
clamp numeric options, base64-decode an image, invoke an external ML
pipeline, export the mesh, and package the bytes back as base64.  We embed
every handler as a total Lean function.  External, opaque operations
(PIL image decoding, the neural pipelines, mesh export, the wall clock) are
parameters of an environment record; each of them may either return a value
or raise, which we model with `Except PyExn`.  Python exceptions are modelled
by `PyExn`: either a `torch.cuda.OutOfMemoryError` or any other exception,
both carrying their `str(e)` text.  Python machine-level floats are modelled
by `Rat` (the option values involved, such as 0.85, are exactly
representable) and Python's unbounded `int` by `Int`.

Each embedded handler body also returns a trace of the calls it makes to the
external pipeline functions, so that theorems can speak about the parameter
values the handler actually passes downstream (the Python code prints those
same values before using them).

`base64.b64encode` / `base64.b64decode` from the Python standard library are
modelled byte-accurately on byte strings (RFC 4648 with `=` padding, the
encoding Python implements); strings exchanged with base64 are represented
by their lists of ASCII codes.
-/

/-- A Python exception as the handlers observe it: either a
`torch.cuda.OutOfMemoryError` (the class the TripoSR handler catches
specially) or any other exception.  Both carry their `str(e)` text. -/
inductive PyExn : Type
  | cudaOOM (msg : String)
  | other (msg : String)
deriving DecidableEq, Repr

/-- `str(e)` of an exception. -/
def PyExn.str : PyExn → String
  | .cudaOOM m => m
  | .other m => m

/-- A Python value occurring in a handler's response dictionary. -/
inductive PyVal : Type
  | vstr (s : String)
  | vint (n : Int)
  | vrat (q : Rat)
  | vbool (b : Bool)
  | vascii (codes : List Nat)
deriving DecidableEq, Repr

/-- A Python dict, as the ordered list of its key/value pairs. -/
abbrev PyDict := List (String × PyVal)

/-- Python's truthiness test `not image_b64` for an optional string value:
true when the key is absent (`None`) or the string is empty. -/
def pyFalsy : Option String → Bool
  | none => true
  | some s => s = ""

/-- Python's `in` operator on strings: `sub in s`. -/
def pyInStr (sub s : String) : Bool :=
  decide (List.IsInfix sub.toList s.toList)

/-- Python's `str.lower()`, characterwise (the strings the handlers lower
are ASCII, on which Python's `lower` agrees with `Char.toLower`). -/
def pyLower (s : String) : String :=
  ⟨s.data.map Char.toLower⟩

/-! ### Byte-accurate model of Python's `base64.b64encode` / `b64decode`

`b64encode` maps a byte string (list of naturals `< 256`) to the ASCII codes
of its RFC 4648 base64 encoding with `=` (code 61) padding, exactly as
Python's `base64.b64encode` does.  `b64decode` is the inverse on well-formed
padded input (the only inputs the handlers ever produce) and `none` models
`binascii.Error` elsewhere. -/

/-- ASCII code of the base64 alphabet character for a sextet `i < 64`. -/
def b64char (i : Nat) : Nat :=
  if i < 26 then 65 + i
  else if i < 52 then 97 + (i - 26)
  else if i < 62 then 48 + (i - 52)
  else if i = 62 then 43
  else 47

/-- Inverse of the base64 alphabet: sextet value of an ASCII code. -/
def b64val (c : Nat) : Option Nat :=
  if 65 ≤ c ∧ c ≤ 90 then some (c - 65)
  else if 97 ≤ c ∧ c ≤ 122 then some (c - 97 + 26)
  else if 48 ≤ c ∧ c ≤ 57 then some (c - 48 + 52)
  else if c = 43 then some 62
  else if c = 47 then some 63
  else none

/-- Model of `base64.b64encode`: bytes to ASCII codes of the padded base64
text. -/
def b64encode : List Nat → List Nat
  | a :: b :: c :: rest =>
      let n := a * 65536 + b * 256 + c
      b64char (n / 262144) :: b64char (n / 4096 % 64) ::
        b64char (n / 64 % 64) :: b64char (n % 64) :: b64encode rest
  | [a, b] =>
      let n := a * 1024 + b * 4
      [b64char (n / 4096), b64char (n / 64 % 64), b64char (n % 64), 61]
  | [a] =>
      let n := a * 16
      [b64char (n / 64), b64char (n % 64), 61, 61]
  | [] => []

/-- Model of `base64.b64decode` on ASCII codes: returns the decoded bytes,
or `none` for input it rejects (modelling a raised `binascii.Error`). -/
def b64decode : List Nat → Option (List Nat)
  | c1 :: c2 :: c3 :: c4 :: rest =>
      (b64val c1).bind fun v1 =>
      (b64val c2).bind fun v2 =>
      if c3 = 61 then
        if c4 = 61 ∧ rest = [] then some [v1 * 4 + v2 / 16] else none
      else
        (b64val c3).bind fun v3 =>
        if c4 = 61 then
          if rest = [] then some [v1 * 4 + v2 / 16, v2 % 16 * 16 + v3 / 4]
          else none
        else
          (b64val c4).bind fun v4 =>
          (b64decode rest).map fun tl =>
            (v1 * 4 + v2 / 16) :: (v2 % 16 * 16 + v3 / 4) ::
              (v3 % 4 * 64 + v4) :: tl
  | [] => some []
  | _ => none

theorem b64val_b64char : ∀ i : Nat, i < 64 → b64val (b64char i) = some i := by
  decide

theorem b64char_ne_eq : ∀ i : Nat, i < 64 → b64char i ≠ 61 := by
  decide

/-- Round trip: decoding an encoded byte string recovers it exactly. -/
theorem b64decode_b64encode (bs : List Nat) (h : ∀ x ∈ bs, x < 256) :
    b64decode (b64encode bs) = some bs := by
  induction bs using b64encode.induct with
  | case1 a b c rest ih =>
      have ha : a < 256 := h a (by simp)
      have hb : b < 256 := h b (by simp)
      have hc : c < 256 := h c (by simp)
      have ih' := ih (fun x hx => h x (by simp [hx]))
      have h1 : (a * 65536 + b * 256 + c) / 262144 < 64 := by omega
      have h2 : (a * 65536 + b * 256 + c) / 4096 % 64 < 64 := by omega
      have h3 : (a * 65536 + b * 256 + c) / 64 % 64 < 64 := by omega
      have h4 : (a * 65536 + b * 256 + c) % 64 < 64 := by omega
      simp [b64encode, b64decode, b64val_b64char _ h1, b64val_b64char _ h2,
        b64val_b64char _ h3, b64val_b64char _ h4, b64char_ne_eq _ h3,
        b64char_ne_eq _ h4, ih']
      omega
  | case2 a b =>
      have ha : a < 256 := h a (by simp)
      have hb : b < 256 := h b (by simp)
      have h1 : (a * 1024 + b * 4) / 4096 < 64 := by omega
      have h2 : (a * 1024 + b * 4) / 64 % 64 < 64 := by omega
      have h3 : (a * 1024 + b * 4) % 64 < 64 := by omega
      simp [b64encode, b64decode, b64val_b64char _ h1, b64val_b64char _ h2,
        b64val_b64char _ h3, b64char_ne_eq _ h3]
      omega
  | case3 a =>
      have ha : a < 256 := h a (by simp)
      have h1 : a * 16 / 64 < 64 := by omega
      have h2 : a * 16 % 64 < 64 := by omega
      simp [b64encode, b64decode, b64val_b64char _ h1, b64val_b64char _ h2]
      omega
  | case4 => rfl

/-! ### Abstract handles for external objects

PIL images, meshes and pipelines are opaque objects produced and consumed
only by external library calls; the handlers never inspect them beyond the
`vertices`/`faces` counts of a mesh.  We model them as tagged tokens. -/

/-- Abstract handle for a PIL image object. -/
structure PImage : Type where
  id : Nat
deriving DecidableEq, Repr

/-- Abstract handle for a generated mesh; the TripoSR handler reads
`len(mesh.vertices)` and `len(mesh.faces)` from it. -/
structure Mesh : Type where
  vertices : Nat
  faces : Nat
  id : Nat
deriving DecidableEq, Repr

/-! ### TripoSR handler (`runpod-handler/handler.py`) -/

/-- The fields of `event["input"]` that the TripoSR handler reads.  A field
is `none` when the key is absent.  For the numeric options the embedding
records the outcome of Python's `float(...)` / `int(...)` conversion of the
supplied value: `.ok q` when it converts, `.error e` when it raises. -/
structure TriposrRequest : Type where
  image : Option String
  foreground_ratio : Option (Except PyExn Rat)
  mc_resolution : Option (Except PyExn Int)
  output_format : Option String

/-- The external operations the TripoSR handler invokes, as opaque
functions: `base64.b64decode` + `Image.open` (the inner `try` block),
`preprocess_image` (background removal and resizing, delegated to the
TripoSR library), `generate_mesh` (model inference + marching cubes, which
also performs the lazy `load_model`), mesh export followed by reading the
temp file back, and the wall-clock execution time. -/
structure TriposrEnv : Type where
  decodeImage : String → Except PyExn PImage
  preprocess_image : PImage → Rat → Except PyExn PImage
  generate_mesh : PImage → Int → Except PyExn Mesh
  export_read : Mesh → String → Except PyExn (List Nat)
  execTime : Rat

/-- A record of one call the handler makes to an external operation, with
the argument values it passes. -/
inductive TriposrCall : Type
  | decodeImage (image_b64 : String)
  | preprocess_image (img : PImage) (foreground_ratio : Rat)
  | generate_mesh (img : PImage) (mc_resolution : Int)
  | export_read (mesh : Mesh) (output_format : String)
deriving DecidableEq, Repr

/-- The error dict returned when the `image` key is missing or falsy. -/
def noImageError : PyDict :=
  [("error", .vstr "No image provided. Include 'image' key with base64 encoded image.")]

/-- Warning string attached to responses for files of 5MB or more. -/
def largeFileWarning : String :=
  "Large file returned as base64. Consider using S3 for production."

/-- The body of the TripoSR `handler` (the contents of its outer `try`),
returning the response dict or the uncaught exception, together with the
trace of external calls made.  Mirrors `handler.py` lines 134-221. -/
def triposr_body (env : TriposrEnv) (event : TriposrRequest) :
    Except PyExn PyDict × List TriposrCall :=
  let image_b64 := event.image
  match event.foreground_ratio.getD (.ok (0.85 : Rat)) with
  | .error e => (.error e, [])
  | .ok foreground_ratio =>
  match event.mc_resolution.getD (.ok (256 : Int)) with
  | .error e => (.error e, [])
  | .ok mc_resolution =>
  let output_format := pyLower (event.output_format.getD "glb")
  match image_b64 with
  | none => (.ok noImageError, [])
  | some img =>
  if img = "" then (.ok noImageError, [])
  else
  let foreground_ratio :=
    if foreground_ratio < (0.5 : Rat) ∨ foreground_ratio > (1.0 : Rat) then
      (0.85 : Rat)
    else foreground_ratio
  let mc_resolution :=
    if mc_resolution ∉ ([128, 256, 512] : List Int) then (256 : Int)
    else mc_resolution
  let output_format :=
    if output_format ∉ (["glb", "obj"] : List String) then "glb"
    else output_format
  match env.decodeImage img with
  | .error e =>
      (.ok [("error", .vstr ("Failed to decode image: " ++ e.str))],
       [.decodeImage img])
  | .ok image =>
  match env.preprocess_image image foreground_ratio with
  | .error e =>
      (.error e, [.decodeImage img, .preprocess_image image foreground_ratio])
  | .ok processed_image =>
  match env.generate_mesh processed_image mc_resolution with
  | .error e =>
      (.error e, [.decodeImage img, .preprocess_image image foreground_ratio,
                  .generate_mesh processed_image mc_resolution])
  | .ok mesh =>
  let vertices := mesh.vertices
  let faces := mesh.faces
  match env.export_read mesh output_format with
  | .error e =>
      (.error e, [.decodeImage img, .preprocess_image image foreground_ratio,
                  .generate_mesh processed_image mc_resolution,
                  .export_read mesh output_format])
  | .ok mesh_data =>
  let file_size := mesh_data.length
  let trace : List TriposrCall :=
    [.decodeImage img, .preprocess_image image foreground_ratio,
     .generate_mesh processed_image mc_resolution,
     .export_read mesh output_format]
  if file_size < 5 * 1024 * 1024 then
    (.ok [("model_base64", .vascii (b64encode mesh_data)),
          ("file_size", .vint (file_size : Int)),
          ("vertices", .vint (vertices : Int)),
          ("faces", .vint (faces : Int)),
          ("format", .vstr output_format),
          ("execution_time", .vrat env.execTime)], trace)
  else
    (.ok [("model_base64", .vascii (b64encode mesh_data)),
          ("file_size", .vint (file_size : Int)),
          ("vertices", .vint (vertices : Int)),
          ("faces", .vint (faces : Int)),
          ("format", .vstr output_format),
          ("execution_time", .vrat env.execTime),
          ("warning", .vstr largeFileWarning)], trace)

/-- The TripoSR `handler`: the body wrapped in the two `except` clauses
(`torch.cuda.OutOfMemoryError` first, then `Exception`). -/
def triposr_handler (env : TriposrEnv) (event : TriposrRequest) : PyDict :=
  match (triposr_body env event).1 with
  | .ok result => result
  | .error (.cudaOOM _) =>
      [("error", .vstr "GPU out of memory. Try a lower resolution (128 or 256).")]
  | .error (.other m) =>
      [("error", .vstr ("Generation failed: " ++ m))]

/-! ### SF3D handler (`runpod-handler-sf3d/handler.py`) -/

/-- The fields of `event["input"]` that the SF3D handler reads, with the
same conventions as `TriposrRequest`. -/
structure Sf3dRequest : Type where
  image : Option String
  foreground_ratio : Option (Except PyExn Rat)
  texture_resolution : Option (Except PyExn Int)
  remesh_option : Option String

/-- External operations of the SF3D handler: image decoding (`b64decode` +
`Image.open(...).convert("RGBA")`), `remove_background` (rembg),
`resize_foreground`, `sf3d.run_image` with its `bake_resolution` and
`remesh` arguments (model loading included), mesh export + file read, and
the wall clock. -/
structure Sf3dEnv : Type where
  decodeImage : String → Except PyExn PImage
  remove_background : PImage → Except PyExn PImage
  resize_foreground : PImage → Rat → Except PyExn PImage
  run_image : PImage → Int → Option String → Except PyExn Mesh
  export_read : Mesh → Except PyExn (List Nat)
  execTime : Rat

/-- A record of one external call of the SF3D handler. -/
inductive Sf3dCall : Type
  | decodeImage (image_b64 : String)
  | remove_background (img : PImage)
  | resize_foreground (img : PImage) (foreground_ratio : Rat)
  | run_image (img : PImage) (bake_resolution : Int) (remesh : Option String)
  | export_read (mesh : Mesh)
deriving DecidableEq, Repr

/-- The body of the SF3D `handler` (the contents of its `try`), returning
the response dict or the uncaught exception, plus the trace of external
calls.  Mirrors `handler.py` lines 139-226. -/
def sf3d_body (env : Sf3dEnv) (event : Sf3dRequest) :
    Except PyExn PyDict × List Sf3dCall :=
  let image_b64 := event.image
  match event.foreground_ratio.getD (.ok (0.85 : Rat)) with
  | .error e => (.error e, [])
  | .ok foreground_ratio =>
  match event.texture_resolution.getD (.ok (1024 : Int)) with
  | .error e => (.error e, [])
  | .ok texture_resolution =>
  let remesh_option := pyLower (event.remesh_option.getD "none")
  match image_b64 with
  | none => (.ok noImageError, [])
  | some img =>
  if img = "" then (.ok noImageError, [])
  else
  let foreground_ratio :=
    if foreground_ratio < (0.5 : Rat) ∨ foreground_ratio > (1.0 : Rat) then
      (0.85 : Rat)
    else foreground_ratio
  let texture_resolution := max 512 (min 2048 texture_resolution)
  let remesh_option :=
    if remesh_option ∉ (["none", "triangle", "quad"] : List String) then "none"
    else remesh_option
  match env.decodeImage img with
  | .error e =>
      (.ok [("error", .vstr ("Failed to decode image: " ++ e.str))],
       [.decodeImage img])
  | .ok image =>
  match env.remove_background image with
  | .error e => (.error e, [.decodeImage img, .remove_background image])
  | .ok image1 =>
  match env.resize_foreground image1 foreground_ratio with
  | .error e =>
      (.error e, [.decodeImage img, .remove_background image,
                  .resize_foreground image1 foreground_ratio])
  | .ok image2 =>
  let remesh_arg := if remesh_option ≠ "none" then some remesh_option else none
  match env.run_image image2 texture_resolution remesh_arg with
  | .error e =>
      (.error e, [.decodeImage img, .remove_background image,
                  .resize_foreground image1 foreground_ratio,
                  .run_image image2 texture_resolution remesh_arg])
  | .ok mesh =>
  match env.export_read mesh with
  | .error e =>
      (.error e, [.decodeImage img, .remove_background image,
                  .resize_foreground image1 foreground_ratio,
                  .run_image image2 texture_resolution remesh_arg,
                  .export_read mesh])
  | .ok mesh_data =>
  let file_size := mesh_data.length
  let trace : List Sf3dCall :=
    [.decodeImage img, .remove_background image,
     .resize_foreground image1 foreground_ratio,
     .run_image image2 texture_resolution remesh_arg, .export_read mesh]
  (.ok [("model_base64", .vascii (b64encode mesh_data)),
        ("file_size", .vint (file_size : Int)),
        ("format", .vstr "glb"),
        ("texture_resolution", .vint texture_resolution),
        ("execution_time", .vrat env.execTime)], trace)

/-- The SF3D `handler`: the body wrapped in its single `except Exception`
clause, which special-cases messages containing `"out of memory"`. -/
def sf3d_handler (env : Sf3dEnv) (event : Sf3dRequest) : PyDict :=
  match (sf3d_body env event).1 with
  | .ok result => result
  | .error e =>
      if pyInStr "out of memory" (pyLower e.str) then
        [("error", .vstr "GPU out of memory. Try a lower texture_resolution (512 or 1024).")]
      else
        [("error", .vstr ("Generation failed: " ++ e.str))]

/-! ### Hunyuan3D-2 handler (`runpod-handler-hunyuan3d/handler.py`) -/

/-- Abstract handle for the Hunyuan3D shape-generation pipeline. -/
structure ShapePipe : Type where
  id : Nat
deriving DecidableEq, Repr

/-- Abstract handle for the Hunyuan3D texture-painting pipeline. -/
structure PaintPipe : Type where
  id : Nat
deriving DecidableEq, Repr

/-- The fields of `event["input"]` that the Hunyuan3D handler reads.
`generate_texture` and `remove_background` are used only as truth values,
so they are modelled as booleans (default `True`). -/
structure HunyuanRequest : Type where
  image : Option String
  generate_texture : Option Bool
  remove_background : Option Bool
  profile : Option (Except PyExn Int)

/-- External operations of the Hunyuan3D handler: image decoding,
`remove_background` (rembg), `load_models` (receiving the
`generate_texture` flag and the clamped `profile`), the shape pipeline
call, the paint pipeline call, mesh export + file read, and the wall
clock. -/
structure HunyuanEnv : Type where
  decodeImage : String → Except PyExn PImage
  remove_background : PImage → Except PyExn PImage
  load_models : Bool → Int → Except PyExn (ShapePipe × Option PaintPipe)
  shape_gen : ShapePipe → PImage → Except PyExn Mesh
  paint : PaintPipe → Mesh → PImage → Except PyExn Mesh
  export_read : Mesh → Except PyExn (List Nat)
  execTime : Rat

/-- A record of one external call of the Hunyuan3D handler. -/
inductive HunyuanCall : Type
  | decodeImage (image_b64 : String)
  | remove_background (img : PImage)
  | load_models (generate_texture : Bool) (profile : Int)
  | shape_gen (pipe : ShapePipe) (img : PImage)
  | paint (pipe : PaintPipe) (mesh : Mesh) (img : PImage)
  | export_read (mesh : Mesh)
deriving DecidableEq, Repr

/-- The tail of the Hunyuan3D handler body from mesh export onward
(`handler.py` lines 168-197): export the (possibly textured) mesh, read
the bytes back and build the response dict.  `preTrace` is the trace
accumulated so far. -/
def hunyuan_finish (env : HunyuanEnv) (generate_texture : Bool)
    (preTrace : List HunyuanCall) (mesh : Mesh) :
    Except PyExn PyDict × List HunyuanCall :=
  match env.export_read mesh with
  | .error e => (.error e, preTrace ++ [.export_read mesh])
  | .ok mesh_data =>
      let file_size := mesh_data.length
      (.ok [("model_base64", .vascii (b64encode mesh_data)),
            ("file_size", .vint (file_size : Int)),
            ("format", .vstr "glb"),
            ("textured", .vbool generate_texture),
            ("execution_time", .vrat env.execTime)],
       preTrace ++ [.export_read mesh])

/-- The texture step of the Hunyuan3D handler (`handler.py` lines
162-166): `if generate_texture and paint_pipe is not None`, apply the
paint pipeline to the mesh, then continue with export. -/
def hunyuan_paint_step (env : HunyuanEnv) (generate_texture : Bool)
    (preTrace : List HunyuanCall) (paint_pipe : Option PaintPipe)
    (mesh0 : Mesh) (image : PImage) :
    Except PyExn PyDict × List HunyuanCall :=
  match paint_pipe with
  | some pp =>
      if generate_texture then
        match env.paint pp mesh0 image with
        | .error e => (.error e, preTrace ++ [.paint pp mesh0 image])
        | .ok mesh1 =>
            hunyuan_finish env generate_texture
              (preTrace ++ [.paint pp mesh0 image]) mesh1
      else hunyuan_finish env generate_texture preTrace mesh0
  | none => hunyuan_finish env generate_texture preTrace mesh0

/-- The Hunyuan3D handler body from model loading onward (`handler.py`
lines 149-197): load the pipelines with the (already clamped) profile,
generate the mesh, texture it if requested, export.  `bgTrace` records
whether background removal was called. -/
def hunyuan_rest (env : HunyuanEnv) (generate_texture : Bool)
    (profile : Int) (image : PImage) (img : String)
    (bgTrace : List HunyuanCall) :
    Except PyExn PyDict × List HunyuanCall :=
  match env.load_models generate_texture profile with
  | .error e =>
      (.error e, [.decodeImage img] ++ bgTrace ++
                 [.load_models generate_texture profile])
  | .ok (shape_pipe, paint_pipe) =>
  match env.shape_gen shape_pipe image with
  | .error e =>
      (.error e, [.decodeImage img] ++ bgTrace ++
                 [.load_models generate_texture profile,
                  .shape_gen shape_pipe image])
  | .ok mesh0 =>
      hunyuan_paint_step env generate_texture
        ([.decodeImage img] ++ bgTrace ++
         [.load_models generate_texture profile,
          .shape_gen shape_pipe image]) paint_pipe mesh0 image

/-- The body of the Hunyuan3D `handler` (the contents of its `try`),
returning the response dict or the uncaught exception, plus the trace of
external calls.  Mirrors `handler.py` lines 110-197. -/
def hunyuan_body (env : HunyuanEnv) (event : HunyuanRequest) :
    Except PyExn PyDict × List HunyuanCall :=
  let image_b64 := event.image
  let generate_texture := event.generate_texture.getD true
  let do_remove_bg := event.remove_background.getD true
  match event.profile.getD (.ok (3 : Int)) with
  | .error e => (.error e, [])
  | .ok profile =>
  match image_b64 with
  | none => (.ok noImageError, [])
  | some img =>
  if img = "" then (.ok noImageError, [])
  else
  let profile := max 1 (min 5 profile)
  match env.decodeImage img with
  | .error e =>
      (.ok [("error", .vstr ("Failed to decode image: " ++ e.str))],
       [.decodeImage img])
  | .ok image0 =>
  if do_remove_bg then
    match env.remove_background image0 with
    | .error e => (.error e, [.decodeImage img, .remove_background image0])
    | .ok image1 =>
        hunyuan_rest env generate_texture profile image1 img
          [HunyuanCall.remove_background image0]
  else hunyuan_rest env generate_texture profile image0 img []

/-- The Hunyuan3D `handler`: the body wrapped in its single
`except Exception` clause, which special-cases messages containing
`"out of memory"`. -/
def hunyuan_handler (env : HunyuanEnv) (event : HunyuanRequest) : PyDict :=
  match (hunyuan_body env event).1 with
  | .ok result => result
  | .error e =>
      if pyInStr "out of memory" (pyLower e.str) then
        [("error", .vstr "GPU out of memory. Try increasing the memory profile (3-5).")]
      else
        [("error", .vstr ("Generation failed: " ++ e.str))]

/-! ### Lazily-initialized model singletons (`load_model`)

`load_model` in the TripoSR and SF3D handlers reads a process-wide global:
it loads the model only when the global is `None` and returns the cached
handle otherwise.  We model the globals as an explicit state record and
the external `from_pretrained` / `new_session` constructors as function
parameters. -/

/-- Abstract handle for the loaded TripoSR model object. -/
structure TSRModel : Type where
  id : Nat
deriving DecidableEq, Repr

/-- The process-wide globals of the TripoSR handler (`model = None`). -/
structure TriposrGlobals : Type where
  model : Option TSRModel
deriving DecidableEq, Repr

/-- `load_model` of the TripoSR handler (lines 40-54): if the global
`model` is `None`, construct it via `TSR.from_pretrained` (plus the
`set_chunk_size`/`to("cuda")` configuration, absorbed into the opaque
constructor) and store it; always return the handle. -/
def triposr_load_model (from_pretrained : Unit → TSRModel)
    (g : TriposrGlobals) : TSRModel × TriposrGlobals :=
  match g.model with
  | none =>
      let m := from_pretrained ()
      (m, { model := some m })
  | some m => (m, g)

/-- Abstract handle for the loaded SF3D model object. -/
structure SF3DModel : Type where
  id : Nat
deriving DecidableEq, Repr

/-- Abstract handle for a rembg session. -/
structure RembgSession : Type where
  id : Nat
deriving DecidableEq, Repr

/-- The process-wide globals of the SF3D handler that `load_model`
touches (`model = None`, `rembg_session = None`). -/
structure Sf3dGlobals : Type where
  model : Option SF3DModel
  rembg_session : Option RembgSession
deriving DecidableEq, Repr

/-- `load_model` of the SF3D handler (lines 66-87): if the global `model`
is `None`, construct it via `SF3D.from_pretrained` and also initialize the
rembg session; always return the model handle.  (`lazy_import` only fills
module-reference globals and is omitted.) -/
def sf3d_load_model (from_pretrained : Unit → SF3DModel)
    (new_session : Unit → RembgSession) (g : Sf3dGlobals) :
    SF3DModel × Sf3dGlobals :=
  match g.model with
  | none =>
      let m := from_pretrained ()
      (m, { model := some m, rembg_session := some (new_session ()) })
  | some m => (m, g)

/-! ### Concrete instances used in witnesses and counterexamples -/

/-- A concrete image token. -/
def img0 : PImage := ⟨0⟩

/-- A second concrete image token. -/
def img1 : PImage := ⟨1⟩

/-- A concrete mesh token. -/
def mesh0 : Mesh := ⟨8, 12, 0⟩

/-- Concrete exported-file bytes. -/
def bytes0 : List Nat := [0, 1, 2]

/-- A TripoSR environment in which every external call succeeds. -/
def envT0 : TriposrEnv :=
  { decodeImage := fun _ => .ok img0
    preprocess_image := fun _ _ => .ok img1
    generate_mesh := fun _ _ => .ok mesh0
    export_read := fun _ _ => .ok bytes0
    execTime := 1 }

/-- An SF3D environment in which every external call succeeds. -/
def envS0 : Sf3dEnv :=
  { decodeImage := fun _ => .ok img0
    remove_background := fun _ => .ok img0
    resize_foreground := fun _ _ => .ok img1
    run_image := fun _ _ _ => .ok mesh0
    export_read := fun _ => .ok bytes0
    execTime := 1 }

/-- A Hunyuan3D environment in which every external call succeeds. -/
def envH0 : HunyuanEnv :=
  { decodeImage := fun _ => .ok img0
    remove_background := fun _ => .ok img0
    load_models := fun _ _ => .ok (⟨0⟩, some ⟨0⟩)
    shape_gen := fun _ _ => .ok mesh0
    paint := fun _ _ _ => .ok mesh0
    export_read := fun _ => .ok bytes0
    execTime := 1 }

/-- An option value of a request "parses": the key is absent (so the
conversion applies to the numeric default) or the supplied value converts
without raising. -/
def OptParses {α : Type} (o : Option (Except PyExn α)) : Prop :=
  o = none ∨ ∃ a, o = some (.ok a)

/-! ### Claim theorems -/

/-- C8: the model singleton is initialized lazily and at most once.
`load_model` loads only when the global handle is `None`; calling it twice
equals calling it once; on an already-loaded state it returns the cached
handle with the state unchanged; and after any call the handle is `some`
(no path stores `None` back).  Holds for both the TripoSR and the SF3D
`load_model`. -/
theorem c8_load_model_singleton
    (fp : Unit → TSRModel) (g : TriposrGlobals)
    (fps : Unit → SF3DModel) (ns : Unit → RembgSession) (gs : Sf3dGlobals) :
    (triposr_load_model fp (triposr_load_model fp g).2 =
       triposr_load_model fp g) ∧
    ((triposr_load_model fp g).2.model = some (triposr_load_model fp g).1) ∧
    (∀ m, g.model = some m → triposr_load_model fp g = (m, g)) ∧
    (sf3d_load_model fps ns (sf3d_load_model fps ns gs).2 =
       sf3d_load_model fps ns gs) ∧
    ((sf3d_load_model fps ns gs).2.model =
       some (sf3d_load_model fps ns gs).1) ∧
    (∀ m, gs.model = some m → sf3d_load_model fps ns gs = (m, gs)) := by
  obtain ⟨mo⟩ := g
  obtain ⟨mo2, rs⟩ := gs
  cases mo <;> cases mo2 <;>
    simp [triposr_load_model, sf3d_load_model]

/-- Witness for C8: on a state whose model is already loaded, `load_model`
returns that handle and leaves the state unchanged. -/
theorem c8_load_model_singleton_witness :
    triposr_load_model (fun _ => ⟨7⟩) ⟨some ⟨9⟩⟩ = (⟨9⟩, ⟨some ⟨9⟩⟩) ∧
    sf3d_load_model (fun _ => ⟨7⟩) (fun _ => ⟨1⟩) ⟨some ⟨9⟩, none⟩ =
      (⟨9⟩, ⟨some ⟨9⟩, none⟩) := by
  refine ⟨?_, ?_⟩
  · exact (c8_load_model_singleton (fun _ => ⟨7⟩) ⟨some ⟨9⟩⟩
      (fun _ => ⟨7⟩) (fun _ => ⟨1⟩) ⟨some ⟨9⟩, none⟩).2.2.1 ⟨9⟩ rfl
  · exact (c8_load_model_singleton (fun _ => ⟨7⟩) ⟨some ⟨9⟩⟩
      (fun _ => ⟨7⟩) (fun _ => ⟨1⟩) ⟨some ⟨9⟩, none⟩).2.2.2.2.2 ⟨9⟩ rfl

/-- C4: each handler is total over its embedded effects and the top-level
`except` clauses turn every exception of the body into an error dict: the
TripoSR handler maps `torch.cuda.OutOfMemoryError` to its fixed OOM
message and any other exception `e` to `"Generation failed: " + str(e)`;
the SF3D and Hunyuan3D handlers special-case messages containing
`"out of memory"` and otherwise return `"Generation failed: " + str(e)`;
a body that returns a dict is passed through unchanged. -/
theorem c4_top_level_catch
    (envT : TriposrEnv) (evT : TriposrRequest)
    (envS : Sf3dEnv) (evS : Sf3dRequest)
    (envH : HunyuanEnv) (evH : HunyuanRequest) :
    (∀ d, (triposr_body envT evT).1 = .ok d → triposr_handler envT evT = d) ∧
    (∀ m, (triposr_body envT evT).1 = .error (.cudaOOM m) →
       triposr_handler envT evT =
         [("error", .vstr "GPU out of memory. Try a lower resolution (128 or 256).")]) ∧
    (∀ m, (triposr_body envT evT).1 = .error (.other m) →
       triposr_handler envT evT =
         [("error", .vstr ("Generation failed: " ++ m))]) ∧
    (∀ d, (sf3d_body envS evS).1 = .ok d → sf3d_handler envS evS = d) ∧
    (∀ e, (sf3d_body envS evS).1 = .error e →
       (pyInStr "out of memory" (pyLower (PyExn.str e)) = true →
          sf3d_handler envS evS =
            [("error", .vstr "GPU out of memory. Try a lower texture_resolution (512 or 1024).")]) ∧
       (pyInStr "out of memory" (pyLower (PyExn.str e)) = false →
          sf3d_handler envS evS =
            [("error", .vstr ("Generation failed: " ++ PyExn.str e))])) ∧
    (∀ d, (hunyuan_body envH evH).1 = .ok d → hunyuan_handler envH evH = d) ∧
    (∀ e, (hunyuan_body envH evH).1 = .error e →
       (pyInStr "out of memory" (pyLower (PyExn.str e)) = true →
          hunyuan_handler envH evH =
            [("error", .vstr "GPU out of memory. Try increasing the memory profile (3-5).")]) ∧
       (pyInStr "out of memory" (pyLower (PyExn.str e)) = false →
          hunyuan_handler envH evH =
            [("error", .vstr ("Generation failed: " ++ PyExn.str e))])) := by
  refine ⟨?_, ?_, ?_, ?_, ?_, ?_, ?_⟩
  · intro d h; simp [triposr_handler, h]
  · intro m h; simp [triposr_handler, h]
  · intro m h; simp [triposr_handler, h]
  · intro d h; simp [sf3d_handler, h]
  · intro e h
    constructor <;> intro hs <;> simp [sf3d_handler, h, hs]
  · intro d h; simp [hunyuan_handler, h]
  · intro e h
    constructor <;> intro hs <;> simp [hunyuan_handler, h, hs]

/-- A TripoSR environment whose mesh generation raises
`torch.cuda.OutOfMemoryError`. -/
def envT_oom : TriposrEnv :=
  { envT0 with
    generate_mesh := fun _ _ => .error (.cudaOOM "CUDA out of memory") }

/-- An SF3D environment whose `run_image` raises a runtime error whose
text contains "out of memory". -/
def envS_oom : Sf3dEnv :=
  { envS0 with
    run_image := fun _ _ _ => .error (.other "CUDA out of memory") }

/-- A Hunyuan3D environment whose shape pipeline raises a generic error. -/
def envH_err : HunyuanEnv :=
  { envH0 with shape_gen := fun _ _ => .error (.other "boom") }

/-- A well-formed TripoSR request with all options at their defaults. -/
def reqT_ok : TriposrRequest :=
  { image := some "aW1n"
    foreground_ratio := none
    mc_resolution := none
    output_format := none }

/-- A well-formed SF3D request with all options at their defaults. -/
def reqS_ok : Sf3dRequest :=
  { image := some "aW1n"
    foreground_ratio := none
    texture_resolution := none
    remesh_option := none }

/-- A well-formed Hunyuan3D request with all options at their defaults. -/
def reqH_ok : HunyuanRequest :=
  { image := some "aW1n"
    generate_texture := none
    remove_background := none
    profile := none }

/-- Witness for C4: a CUDA OOM in TripoSR mesh generation yields the fixed
OOM message, an SF3D exception whose text contains "out of memory" yields
the SF3D OOM message, and a generic Hunyuan3D exception yields
`"Generation failed: " + str(e)`. -/
theorem c4_top_level_catch_witness :
    triposr_handler envT_oom reqT_ok =
      [("error", .vstr "GPU out of memory. Try a lower resolution (128 or 256).")] ∧
    sf3d_handler envS_oom reqS_ok =
      [("error", .vstr "GPU out of memory. Try a lower texture_resolution (512 or 1024).")] ∧
    hunyuan_handler envH_err reqH_ok =
      [("error", .vstr ("Generation failed: " ++ "boom"))] := by
  refine ⟨?_, ?_, ?_⟩
  · exact (c4_top_level_catch envT_oom reqT_ok envS0 reqS_ok envH0
      reqH_ok).2.1 "CUDA out of memory" rfl
  · exact ((c4_top_level_catch envT0 reqT_ok envS_oom reqS_ok envH0
      reqH_ok).2.2.2.2.1 (.other "CUDA out of memory") rfl).1 (by decide)
  · exact ((c4_top_level_catch envT0 reqT_ok envS0 reqS_ok envH_err
      reqH_ok).2.2.2.2.2.2 (.other "boom") rfl).2 (by decide)

/-- C10: in the TripoSR handler numeric conversion precedes the image
check: when `foreground_ratio` is present but `float(...)` raises (or
`foreground_ratio` is absent or parses, and `int(mc_resolution)` raises),
the handler returns the generic `"Generation failed: ..."` error — even
when `image` is missing — not the documented no-image error, and it makes
no external call, so the 0.85 default is never applied. -/
theorem c10_conversion_precedes_image_check
    (env : TriposrEnv) (ev : TriposrRequest) (m : String) :
    (ev.foreground_ratio = some (.error (.other m)) →
       triposr_handler env ev = [("error", .vstr ("Generation failed: " ++ m))] ∧
       triposr_handler env ev ≠ noImageError ∧
       (triposr_body env ev).2 = []) ∧
    (OptParses ev.foreground_ratio →
       ev.mc_resolution = some (.error (.other m)) →
       triposr_handler env ev = [("error", .vstr ("Generation failed: " ++ m))] ∧
       triposr_handler env ev ≠ noImageError ∧
       (triposr_body env ev).2 = []) := by
  have hne : ("Generation failed: " ++ m) ≠
      "No image provided. Include 'image' key with base64 encoded image." := by
    intro h
    have hG : ("Generation failed: " ++ m).data.head? = some 'G' := rfl
    rw [h] at hG
    exact absurd hG (by decide)
  constructor
  · intro h
    refine ⟨?_, ?_, ?_⟩ <;>
      simp [triposr_handler, triposr_body, h, noImageError, hne]
  · intro hfr h
    rcases hfr with h1 | ⟨q, h1⟩ <;>
      refine ⟨?_, ?_, ?_⟩ <;>
        simp [triposr_handler, triposr_body, h1, h, noImageError, hne]

/-- A TripoSR request with no image and an unparseable `foreground_ratio`
(the value `"abc"`, on which `float(...)` raises `ValueError`). -/
def reqT_badfloat : TriposrRequest :=
  { image := none
    foreground_ratio :=
      some (.error (.other "could not convert string to float: 'abc'"))
    mc_resolution := none
    output_format := none }

/-- A TripoSR request with no image, no `foreground_ratio` and an
unparseable `mc_resolution` (the value `"zz"`, on which `int(...)` raises
`ValueError`). -/
def reqT_badint2 : TriposrRequest :=
  { image := none
    foreground_ratio := none
    mc_resolution :=
      some (.error (.other "invalid literal for int() with base 10: 'zz'"))
    output_format := none }

/-- Witness for C10: with `image` absent and `foreground_ratio = "abc"`,
the TripoSR handler returns the generic conversion error, not the no-image
error, and performs no external call; likewise with `foreground_ratio`
absent and `mc_resolution = "zz"`. -/
theorem c10_conversion_precedes_image_check_witness :
    (triposr_handler envT0 reqT_badfloat =
      [("error", .vstr ("Generation failed: " ++
        "could not convert string to float: 'abc'"))] ∧
    triposr_handler envT0 reqT_badfloat ≠ noImageError ∧
    (triposr_body envT0 reqT_badfloat).2 = []) ∧
    (triposr_handler envT0 reqT_badint2 =
      [("error", .vstr ("Generation failed: " ++
        "invalid literal for int() with base 10: 'zz'"))] ∧
    triposr_handler envT0 reqT_badint2 ≠ noImageError ∧
    (triposr_body envT0 reqT_badint2).2 = []) :=
  ⟨(c10_conversion_precedes_image_check envT0 reqT_badfloat
      "could not convert string to float: 'abc'").1 rfl,
   (c10_conversion_precedes_image_check envT0 reqT_badint2
      "invalid literal for int() with base 10: 'zz'").2 (Or.inl rfl) rfl⟩

/-- A TripoSR request with no image and an unparseable `mc_resolution`
(the value `"xyz"`, on which `int(...)` raises `ValueError`). -/
def reqT_badint : TriposrRequest :=
  { image := none
    foreground_ratio := none
    mc_resolution :=
      some (.error (.other "invalid literal for int() with base 10: 'xyz'"))
    output_format := none }

/-- Counterexample to C3 as stated: a request whose `input` has no `image`
key does not always get the documented no-image error — when a numeric
option fails to convert, the conversion error wins, because `float(...)` /
`int(...)` run before the image check. -/
theorem c3_error_strings_counterexample :
    triposr_handler envT0 reqT_badint ≠ noImageError ∧
    triposr_handler envT0 reqT_badint =
      [("error", .vstr ("Generation failed: " ++
        "invalid literal for int() with base 10: 'xyz'"))] := by
  constructor
  · decide
  · rfl

/-- C3 (amended: provided the numeric options of the request parse — each
is absent or converts without raising): a request with a missing or falsy
`image` gets exactly the documented no-image error dict, and a request
whose image fails to decode gets exactly
`{"error": "Failed to decode image: " + str(e)}`; in both cases the
handler returns normally rather than raising.  Holds for all three
handlers. -/
theorem c3_documented_input_errors
    (envT : TriposrEnv) (evT : TriposrRequest)
    (hfrT : OptParses evT.foreground_ratio)
    (hmcT : OptParses evT.mc_resolution)
    (envS : Sf3dEnv) (evS : Sf3dRequest)
    (hfrS : OptParses evS.foreground_ratio)
    (htrS : OptParses evS.texture_resolution)
    (envH : HunyuanEnv) (evH : HunyuanRequest)
    (hpH : OptParses evH.profile) :
    ((evT.image = none ∨ evT.image = some "") →
        triposr_handler envT evT = noImageError) ∧
    (∀ img e, evT.image = some img → img ≠ "" →
        envT.decodeImage img = .error e →
        triposr_handler envT evT =
          [("error", .vstr ("Failed to decode image: " ++ PyExn.str e))]) ∧
    ((evS.image = none ∨ evS.image = some "") →
        sf3d_handler envS evS = noImageError) ∧
    (∀ img e, evS.image = some img → img ≠ "" →
        envS.decodeImage img = .error e →
        sf3d_handler envS evS =
          [("error", .vstr ("Failed to decode image: " ++ PyExn.str e))]) ∧
    ((evH.image = none ∨ evH.image = some "") →
        hunyuan_handler envH evH = noImageError) ∧
    (∀ img e, evH.image = some img → img ≠ "" →
        envH.decodeImage img = .error e →
        hunyuan_handler envH evH =
          [("error", .vstr ("Failed to decode image: " ++ PyExn.str e))]) := by
  refine ⟨?_, ?_, ?_, ?_, ?_, ?_⟩
  · rintro (h | h) <;>
      rcases hfrT with h1 | ⟨q, h1⟩ <;> rcases hmcT with h2 | ⟨n, h2⟩ <;>
        simp [triposr_handler, triposr_body, h, h1, h2]
  · intro img e him hne hdec
    rcases hfrT with h1 | ⟨q, h1⟩ <;> rcases hmcT with h2 | ⟨n, h2⟩ <;>
      simp [triposr_handler, triposr_body, him, hne, hdec, h1, h2]
  · rintro (h | h) <;>
      rcases hfrS with h1 | ⟨q, h1⟩ <;> rcases htrS with h2 | ⟨n, h2⟩ <;>
        simp [sf3d_handler, sf3d_body, h, h1, h2]
  · intro img e him hne hdec
    rcases hfrS with h1 | ⟨q, h1⟩ <;> rcases htrS with h2 | ⟨n, h2⟩ <;>
      simp [sf3d_handler, sf3d_body, him, hne, hdec, h1, h2]
  · rintro (h | h) <;>
      rcases hpH with h1 | ⟨q, h1⟩ <;>
        simp [hunyuan_handler, hunyuan_body, h, h1]
  · intro img e him hne hdec
    rcases hpH with h1 | ⟨q, h1⟩ <;>
      simp [hunyuan_handler, hunyuan_body, him, hne, hdec, h1]

/-- A TripoSR request with no keys at all. -/
def reqT_noimg : TriposrRequest := ⟨none, none, none, none⟩

/-- An SF3D request whose image is the empty (falsy) string. -/
def reqS_empty : Sf3dRequest := ⟨some "", none, none, none⟩

/-- A Hunyuan3D request with no keys at all. -/
def reqH_noimg : HunyuanRequest := ⟨none, none, none, none⟩

/-- A TripoSR environment whose image decoding raises. -/
def envT_baddec : TriposrEnv :=
  { envT0 with
    decodeImage := fun _ => .error (.other "cannot identify image file") }

/-- Witness for C3 (amended): the no-image error for an absent image, the
no-image error for an empty image, and the decode-failure error when the
image bytes cannot be opened. -/
theorem c3_documented_input_errors_witness :
    triposr_handler envT0 reqT_noimg = noImageError ∧
    sf3d_handler envS0 reqS_empty = noImageError ∧
    hunyuan_handler envH0 reqH_noimg = noImageError ∧
    triposr_handler envT_baddec reqT_ok =
      [("error", .vstr ("Failed to decode image: " ++
        "cannot identify image file"))] := by
  refine ⟨?_, ?_, ?_, ?_⟩
  · exact (c3_documented_input_errors envT0 reqT_noimg (Or.inl rfl)
      (Or.inl rfl) envS0 reqS_empty (Or.inl rfl) (Or.inl rfl)
      envH0 reqH_noimg (Or.inl rfl)).1 (Or.inl rfl)
  · exact (c3_documented_input_errors envT0 reqT_noimg (Or.inl rfl)
      (Or.inl rfl) envS0 reqS_empty (Or.inl rfl) (Or.inl rfl)
      envH0 reqH_noimg (Or.inl rfl)).2.2.1 (Or.inr rfl)
  · exact (c3_documented_input_errors envT0 reqT_noimg (Or.inl rfl)
      (Or.inl rfl) envS0 reqS_empty (Or.inl rfl) (Or.inl rfl)
      envH0 reqH_noimg (Or.inl rfl)).2.2.2.2.1 (Or.inl rfl)
  · exact (c3_documented_input_errors envT_baddec reqT_ok (Or.inl rfl)
      (Or.inl rfl) envS0 reqS_empty (Or.inl rfl) (Or.inl rfl)
      envH0 reqH_noimg (Or.inl rfl)).2.1 "aW1n"
      (.other "cannot identify image file") rfl (by decide) rfl

/-- C1: in both the TripoSR and the SF3D handler, when `foreground_ratio`
parses to `q`, every downstream use of the ratio (the `preprocess_image`
call in TripoSR, the `resize_foreground` call in SF3D) receives 0.85 if
`q` is outside `[0.5, 1.0]` and `q` itself if `q` is inside, endpoints
included. -/
theorem c1_foreground_ratio_clamp
    (envT : TriposrEnv) (evT : TriposrRequest)
    (envS : Sf3dEnv) (evS : Sf3dRequest) (q : Rat)
    (hT : evT.foreground_ratio = some (.ok q))
    (hS : evS.foreground_ratio = some (.ok q)) :
    ((q < (0.5 : Rat) ∨ q > (1.0 : Rat)) →
       (∀ i r, TriposrCall.preprocess_image i r ∈ (triposr_body envT evT).2 →
          r = (0.85 : Rat)) ∧
       (∀ i r, Sf3dCall.resize_foreground i r ∈ (sf3d_body envS evS).2 →
          r = (0.85 : Rat))) ∧
    (((0.5 : Rat) ≤ q ∧ q ≤ (1.0 : Rat)) →
       (∀ i r, TriposrCall.preprocess_image i r ∈ (triposr_body envT evT).2 →
          r = q) ∧
       (∀ i r, Sf3dCall.resize_foreground i r ∈ (sf3d_body envS evS).2 →
          r = q)) := by
  constructor
  · intro hq
    constructor
    · intro i r hmem
      simp only [triposr_body, hT, Option.getD_some, if_pos hq] at hmem
      repeat' split at hmem
      all_goals simp_all
    · intro i r hmem
      simp only [sf3d_body, hS, Option.getD_some, if_pos hq] at hmem
      repeat' split at hmem
      all_goals simp_all
  · intro hq
    have hc : ¬(q < (0.5 : Rat) ∨ q > (1.0 : Rat)) := by
      simp only [not_or, not_lt]
      exact ⟨hq.1, hq.2⟩
    constructor
    · intro i r hmem
      simp only [triposr_body, hT, Option.getD_some, if_neg hc] at hmem
      repeat' split at hmem
      all_goals simp_all
    · intro i r hmem
      simp only [sf3d_body, hS, Option.getD_some, if_neg hc] at hmem
      repeat' split at hmem
      all_goals simp_all

/-- A TripoSR request with out-of-range `foreground_ratio = 2.0`. -/
def reqT_fr2 : TriposrRequest := ⟨some "aW1n", some (.ok 2), none, none⟩

/-- An SF3D request with out-of-range `foreground_ratio = 2.0`. -/
def reqS_fr2 : Sf3dRequest := ⟨some "aW1n", some (.ok 2), none, none⟩

/-- A TripoSR request with in-range `foreground_ratio = 0.6`. -/
def reqT_fr06 : TriposrRequest := ⟨some "aW1n", some (.ok 0.6), none, none⟩

/-- An SF3D request with in-range `foreground_ratio = 0.6`. -/
def reqS_fr06 : Sf3dRequest := ⟨some "aW1n", some (.ok 0.6), none, none⟩

/-- `str.lower()` fixes the already-lowercase string `"glb"`. -/
theorem pyLower_glb : pyLower "glb" = "glb" := rfl

/-- `str.lower()` fixes the already-lowercase string `"none"`. -/
theorem pyLower_none_str : pyLower "none" = "none" := rfl

/-- Witness for C1: with `foreground_ratio = 2.0` the TripoSR handler
preprocesses with 0.85, and with `foreground_ratio = 0.6` the SF3D handler
resizes with 0.6 — checked on concrete runs. -/
theorem c1_foreground_ratio_clamp_witness :
    TriposrCall.preprocess_image img0 0.85 ∈ (triposr_body envT0 reqT_fr2).2 ∧
    (0.85 : Rat) = 0.85 ∧
    Sf3dCall.resize_foreground img0 0.6 ∈ (sf3d_body envS0 reqS_fr06).2 ∧
    (0.6 : Rat) = 0.6 := by
  have hmemT :
      TriposrCall.preprocess_image img0 0.85 ∈ (triposr_body envT0 reqT_fr2).2 := by
    simp +decide [triposr_body, envT0, reqT_fr2, pyLower_glb, bytes0,
      img0, img1, mesh0] <;> norm_num
  have hmemS :
      Sf3dCall.resize_foreground img0 0.6 ∈ (sf3d_body envS0 reqS_fr06).2 := by
    simp +decide [sf3d_body, envS0, reqS_fr06, pyLower_none_str, bytes0,
      img0, img1, mesh0] <;> norm_num
  refine ⟨hmemT, ?_, hmemS, ?_⟩
  · exact ((c1_foreground_ratio_clamp envT0 reqT_fr2 envS0 reqS_fr2 2
      rfl rfl).1 (by norm_num)).1 img0 0.85 hmemT
  · exact ((c1_foreground_ratio_clamp envT0 reqT_fr06 envS0 reqS_fr06 0.6
      rfl rfl).2 (by norm_num)).2 img0 0.6 hmemS

/-- C2: in the TripoSR handler, when `mc_resolution` parses to `n`, the
`generate_mesh` call receives 256 if `n` is not one of 128, 256, 512, and
`n` unchanged if it is. -/
theorem c2_mc_resolution_clamp
    (env : TriposrEnv) (ev : TriposrRequest) (n : Int)
    (h : ev.mc_resolution = some (.ok n)) :
    (n ∉ ([128, 256, 512] : List Int) →
       ∀ i r, TriposrCall.generate_mesh i r ∈ (triposr_body env ev).2 →
         r = 256) ∧
    (n ∈ ([128, 256, 512] : List Int) →
       ∀ i r, TriposrCall.generate_mesh i r ∈ (triposr_body env ev).2 →
         r = n) := by
  constructor
  · intro hn i r hmem
    simp only [triposr_body, h, Option.getD_some, if_pos hn] at hmem
    repeat' split at hmem
    all_goals simp_all
  · intro hn i r hmem
    simp only [triposr_body, h, Option.getD_some,
      if_neg (not_not_intro hn)] at hmem
    repeat' split at hmem
    all_goals simp_all

/-- A TripoSR request with `mc_resolution = 300` (not one of 128/256/512). -/
def reqT_mc300 : TriposrRequest := ⟨some "aW1n", none, some (.ok 300), none⟩

/-- A TripoSR request with `mc_resolution = 512`. -/
def reqT_mc512 : TriposrRequest := ⟨some "aW1n", none, some (.ok 512), none⟩

/-- Witness for C2: with `mc_resolution = 300` mesh generation runs at
256; with `mc_resolution = 512` it runs at 512 — checked on concrete
runs. -/
theorem c2_mc_resolution_clamp_witness :
    TriposrCall.generate_mesh img1 256 ∈ (triposr_body envT0 reqT_mc300).2 ∧
    (256 : Int) = 256 ∧
    TriposrCall.generate_mesh img1 512 ∈ (triposr_body envT0 reqT_mc512).2 ∧
    (512 : Int) = 512 := by
  have hmem1 :
      TriposrCall.generate_mesh img1 256 ∈ (triposr_body envT0 reqT_mc300).2 := by
    simp +decide [triposr_body, envT0, reqT_mc300, pyLower_glb, bytes0,
      img0, img1, mesh0] <;> norm_num
  have hmem2 :
      TriposrCall.generate_mesh img1 512 ∈ (triposr_body envT0 reqT_mc512).2 := by
    simp +decide [triposr_body, envT0, reqT_mc512, pyLower_glb, bytes0,
      img0, img1, mesh0] <;> norm_num
  refine ⟨hmem1, ?_, hmem2, ?_⟩
  · exact (c2_mc_resolution_clamp envT0 reqT_mc300 300 rfl).1 (by decide)
      img1 256 hmem1
  · exact (c2_mc_resolution_clamp envT0 reqT_mc512 512 rfl).2 (by decide)
      img1 512 hmem2


/-- Helper: when `texture_resolution` parses to `t`, any dict the SF3D
body returns is the no-image error, a single-key error dict, or the
success dict, whose echoed texture resolution is the interval clamp of
`t` into [512, 2048]. -/
theorem sf3d_body_ok_shape (env : Sf3dEnv) (ev : Sf3dRequest) (t : Int)
    (d : PyDict) (ht : ev.texture_resolution = some (.ok t))
    (h : (sf3d_body env ev).1 = .ok d) :
    d = noImageError ∨ (∃ s, d = [("error", PyVal.vstr s)]) ∨
    ∃ mesh bs, env.export_read mesh = .ok bs ∧
      d = [("model_base64", .vascii (b64encode bs)),
           ("file_size", .vint (bs.length : Int)),
           ("format", .vstr "glb"),
           ("texture_resolution", .vint (max 512 (min 2048 t))),
           ("execution_time", .vrat env.execTime)] := by
  simp only [sf3d_body, ht, Option.getD_some] at h
  repeat' split at h
  all_goals simp_all
  all_goals
    first
      | (left; exact h.symm)
      | (right; left; exact ⟨_, h.symm⟩)
      | (right; right; exact ⟨_, _, by assumption, h.symm⟩)

/-- C6 (amended): in the SF3D handler, when `texture_resolution` parses to
`t`, the value used for texture baking (the `bake_resolution` argument of
`run_image`) and echoed in the response's `texture_resolution` field is
`max(512, min(2048, t))` — the interval clamp of `t` into [512, 2048] — so
512, 1024 and 2048 pass through unchanged and an absent option defaults to
1024, but other values are clamped to the interval, not reset to the set
{512, 1024, 2048}. -/
theorem c6_texture_resolution_clamp (env : Sf3dEnv) (ev : Sf3dRequest) :
    (∀ t, ev.texture_resolution = some (.ok t) →
       (∀ i b rm, Sf3dCall.run_image i b rm ∈ (sf3d_body env ev).2 →
          b = max 512 (min 2048 t) ∧ 512 ≤ b ∧ b ≤ 2048 ∧
          (t = 512 ∨ t = 1024 ∨ t = 2048 → b = t)) ∧
       (∀ d v, (sf3d_body env ev).1 = .ok d →
          d.lookup "texture_resolution" = some v →
          v = .vint (max 512 (min 2048 t)))) ∧
    (ev.texture_resolution = none →
       ∀ i b rm, Sf3dCall.run_image i b rm ∈ (sf3d_body env ev).2 →
         b = 1024) := by
  constructor
  · intro t ht
    constructor
    · intro i b rm hmem
      have hb : b = max 512 (min 2048 t) := by
        simp only [sf3d_body, ht, Option.getD_some] at hmem
        repeat' split at hmem
        all_goals simp_all
      refine ⟨hb, by omega, by omega, ?_⟩
      rintro (h | h | h) <;> omega
    · intro d v hok hlook
      rcases sf3d_body_ok_shape env ev t d ht hok with h | ⟨s, h⟩ | ⟨mesh, bs, hexp, h⟩
      · subst h
        have h2 : (noImageError : PyDict).lookup "texture_resolution" = none := rfl
        rw [h2] at hlook
        cases hlook
      · subst h
        have h2 : ([("error", PyVal.vstr s)] : PyDict).lookup "texture_resolution" =
            none := rfl
        rw [h2] at hlook
        cases hlook
      · subst h
        have h2 : List.lookup "texture_resolution"
            ([("model_base64", PyVal.vascii (b64encode bs)),
              ("file_size", PyVal.vint (bs.length : Int)),
              ("format", PyVal.vstr "glb"),
              ("texture_resolution", PyVal.vint (max 512 (min 2048 t))),
              ("execution_time", PyVal.vrat env.execTime)] : PyDict)
            = some (PyVal.vint (max 512 (min 2048 t))) := rfl
        rw [h2] at hlook
        exact (Option.some.inj hlook).symm
  · intro ht i b rm hmem
    simp only [sf3d_body, ht, Option.getD_none] at hmem
    repeat' split at hmem
    all_goals simp_all

/-- An SF3D request with `texture_resolution = 1000`. -/
def reqS_tex1000 : Sf3dRequest := ⟨some "aW1n", none, some (.ok 1000), none⟩

/-- Counterexample to C6 as stated: with `texture_resolution = 1000` the
SF3D handler bakes at 1000 and echoes 1000 in the response, and 1000 is
not one of 512, 1024, 2048 — the code clamps into the interval
[512, 2048] instead of resetting to the documented set. -/
theorem c6_texture_resolution_counterexample :
    (sf3d_handler envS0 reqS_tex1000).lookup "texture_resolution" =
      some (.vint 1000) ∧
    Sf3dCall.run_image img1 1000 none ∈ (sf3d_body envS0 reqS_tex1000).2 ∧
    ¬((1000 : Int) = 512 ∨ (1000 : Int) = 1024 ∨ (1000 : Int) = 2048) := by
  refine ⟨?_, ?_, by decide⟩
  · simp +decide [sf3d_handler, sf3d_body, envS0, reqS_tex1000,
      pyLower_none_str, bytes0, img0, img1, mesh0, List.lookup] <;> norm_num
  · simp +decide [sf3d_body, envS0, reqS_tex1000, pyLower_none_str, bytes0,
      img0, img1, mesh0] <;> norm_num

/-- An SF3D request with `texture_resolution = 4096`. -/
def reqS_tex4096 : Sf3dRequest := ⟨some "aW1n", none, some (.ok 4096), none⟩

/-- Witness for C6 (amended): with `texture_resolution = 4096` the SF3D
handler bakes at 2048, the interval clamp of 4096. -/
theorem c6_texture_resolution_clamp_witness :
    Sf3dCall.run_image img1 2048 none ∈ (sf3d_body envS0 reqS_tex4096).2 ∧
    (2048 : Int) = max 512 (min 2048 4096) ∧
    (512 : Int) ≤ 2048 ∧ (2048 : Int) ≤ 2048 := by
  have hmem : Sf3dCall.run_image img1 2048 none ∈
      (sf3d_body envS0 reqS_tex4096).2 := by
    simp +decide [sf3d_body, envS0, reqS_tex4096, pyLower_none_str, bytes0,
      img0, img1, mesh0] <;> norm_num
  have happ := ((c6_texture_resolution_clamp envS0 reqS_tex4096).1 4096 rfl).1
      img1 2048 none hmem
  exact ⟨hmem, happ.1, happ.2.1, happ.2.2.1⟩

/-- Every call `hunyuan_finish` records is either already in the
accumulated prefix or the final export call. -/
theorem hunyuan_finish_calls (env : HunyuanEnv) (gt : Bool)
    (preT : List HunyuanCall) (mesh : Mesh) :
    ∀ c ∈ (hunyuan_finish env gt preT mesh).2,
      c ∈ preT ∨ c = HunyuanCall.export_read mesh := by
  intro c hc
  unfold hunyuan_finish at hc
  split at hc <;> simp_all

/-- The paint/export tail never adds a `load_models` call to the trace. -/
theorem hunyuan_paint_step_load_mem (env : HunyuanEnv) (gt : Bool)
    (preT : List HunyuanCall) (pp : Option PaintPipe) (mesh0 : Mesh)
    (image : PImage) :
    ∀ g p, HunyuanCall.load_models g p ∈
        (hunyuan_paint_step env gt preT pp mesh0 image).2 →
      HunyuanCall.load_models g p ∈ preT := by
  intro g p h
  unfold hunyuan_paint_step at h
  repeat' split at h
  all_goals
    (try rcases hunyuan_finish_calls _ _ _ _ _ h with h2 | h2) <;> simp_all

/-- Any `load_models` call recorded by `hunyuan_rest` either was already
in the background-removal prefix or carries exactly the flag and profile
`hunyuan_rest` was given. -/
theorem hunyuan_rest_load_mem (env : HunyuanEnv) (gt : Bool) (profile : Int)
    (image : PImage) (img : String) (bgT : List HunyuanCall) :
    ∀ g p, HunyuanCall.load_models g p ∈
        (hunyuan_rest env gt profile image img bgT).2 →
      HunyuanCall.load_models g p ∈ bgT ∨ (g = gt ∧ p = profile) := by
  intro g p h
  unfold hunyuan_rest at h
  repeat' split at h
  all_goals
    (try have h2 := hunyuan_paint_step_load_mem _ _ _ _ _ _ g p h) <;>
      simp_all

/-- C7: in the Hunyuan3D handler, when `profile` parses to `p`, the
profile passed to model loading is `max(1, min(5, p))`: values below 1
become 1, values above 5 become 5, in-range values are unchanged, and an
absent option defaults to 3. -/
theorem c7_profile_clamp (env : HunyuanEnv) (ev : HunyuanRequest) :
    (∀ p, ev.profile = some (.ok p) →
       ∀ gt pr, HunyuanCall.load_models gt pr ∈ (hunyuan_body env ev).2 →
         pr = max 1 (min 5 p) ∧ 1 ≤ pr ∧ pr ≤ 5 ∧
         (p < 1 → pr = 1) ∧ (5 < p → pr = 5) ∧
         (1 ≤ p → p ≤ 5 → pr = p)) ∧
    (ev.profile = none →
       ∀ gt pr, HunyuanCall.load_models gt pr ∈ (hunyuan_body env ev).2 →
         pr = 3) := by
  constructor
  · intro p hp gt pr hmem
    have hb : pr = max 1 (min 5 p) := by
      simp only [hunyuan_body, hp, Option.getD_some] at hmem
      repeat' split at hmem
      all_goals
        (try have h2 := hunyuan_rest_load_mem _ _ _ _ _ _ gt pr hmem) <;>
          simp_all
    refine ⟨hb, by omega, by omega, by omega, by omega, by omega⟩
  · intro hp gt pr hmem
    simp only [hunyuan_body, hp, Option.getD_none] at hmem
    repeat' split at hmem
    all_goals
      (try have h2 := hunyuan_rest_load_mem _ _ _ _ _ _ gt pr hmem) <;>
        simp_all

/-- A Hunyuan3D request with `profile = 7`. -/
def reqH_prof7 : HunyuanRequest := ⟨some "aW1n", none, none, some (.ok 7)⟩

/-- Witness for C7: with `profile = 7` the Hunyuan3D handler loads its
models with profile 5, the clamp of 7 into [1, 5]. -/
theorem c7_profile_clamp_witness :
    HunyuanCall.load_models true 5 ∈ (hunyuan_body envH0 reqH_prof7).2 ∧
    (5 : Int) = max 1 (min 5 7) ∧ (1 : Int) ≤ 5 ∧ (5 : Int) ≤ 5 := by
  have hmem : HunyuanCall.load_models true 5 ∈
      (hunyuan_body envH0 reqH_prof7).2 := by
    simp +decide [hunyuan_body, envH0, reqH_prof7, bytes0, img0, img1, mesh0]
  have happ := (c7_profile_clamp envH0 reqH_prof7).1 7 rfl true 5 hmem
  exact ⟨hmem, happ.1, happ.2.1, happ.2.2.1⟩

/-- C5: contrary to the module docstring, the S3 path is not implemented
(the `TODO` at lines 210-211): even when the exported file is 5MB or
larger, the TripoSR success response contains no `model_url` key at all —
the bytes are still returned in `model_base64`, together with the
large-file warning. -/
theorem c5_no_model_url
    (env : TriposrEnv) (ev : TriposrRequest) (img : String)
    (pim pim2 : PImage) (mesh : Mesh) (bs : List Nat)
    (him : ev.image = some img) (hne : img ≠ "")
    (hfr : OptParses ev.foreground_ratio) (hmc : OptParses ev.mc_resolution)
    (hdec : env.decodeImage img = .ok pim)
    (hpre : ∀ r, env.preprocess_image pim r = .ok pim2)
    (hgen : ∀ m, env.generate_mesh pim2 m = .ok mesh)
    (hexp : ∀ f, env.export_read mesh f = .ok bs)
    (hbig : 5 * 1024 * 1024 ≤ bs.length) :
    (triposr_handler env ev).lookup "model_url" = none ∧
    (triposr_handler env ev).lookup "model_base64" =
      some (.vascii (b64encode bs)) ∧
    (triposr_handler env ev).lookup "warning" =
      some (.vstr largeFileWarning) ∧
    (triposr_handler env ev).lookup "file_size" =
      some (.vint (bs.length : Int)) := by
  have hnotlt : ¬(bs.length < 5 * 1024 * 1024) := by omega
  rcases hfr with h1 | ⟨q, h1⟩ <;> rcases hmc with h2 | ⟨n, h2⟩ <;>
    (refine ⟨?_, ?_, ?_, ?_⟩ <;>
      (simp only [triposr_handler, triposr_body, him, h1, h2,
        Option.getD_some, Option.getD_none, if_neg hne, hdec, hpre, hgen,
        hexp, if_neg hnotlt]
       rfl))

/-- Exported-file bytes of exactly 5MB. -/
def bigbytes : List Nat := List.replicate (5 * 1024 * 1024) 0

/-- A TripoSR environment whose export produces a 5MB file. -/
def envT_big : TriposrEnv :=
  { envT0 with export_read := fun _ _ => .ok bigbytes }

/-- Witness for C5: a successful run whose exported file is exactly 5MB
has no `model_url` in its response, only `model_base64` plus the
warning. -/
theorem c5_no_model_url_witness :
    (triposr_handler envT_big reqT_ok).lookup "model_url" = none ∧
    (triposr_handler envT_big reqT_ok).lookup "model_base64" =
      some (.vascii (b64encode bigbytes)) ∧
    (triposr_handler envT_big reqT_ok).lookup "warning" =
      some (.vstr largeFileWarning) ∧
    (triposr_handler envT_big reqT_ok).lookup "file_size" =
      some (.vint (bigbytes.length : Int)) :=
  c5_no_model_url envT_big reqT_ok "aW1n" img0 img1 mesh0 bigbytes rfl
    (by decide) (Or.inl rfl) (Or.inl rfl) rfl (fun _ => rfl) (fun _ => rfl)
    (fun _ => rfl) (le_of_eq (List.length_replicate _ _).symm)

/-- Helper: any dict the TripoSR body returns either lacks both
`model_base64` and `file_size`, or carries exactly the base64 encoding and
the byte length of one exported file. -/
theorem triposr_body_ok_lookups (env : TriposrEnv) (ev : TriposrRequest)
    (d : PyDict) (h : (triposr_body env ev).1 = .ok d) :
    (d.lookup "model_base64" = none ∧ d.lookup "file_size" = none) ∨
    ∃ mesh fmt bs, env.export_read mesh fmt = .ok bs ∧
      d.lookup "model_base64" = some (.vascii (b64encode bs)) ∧
      d.lookup "file_size" = some (.vint (bs.length : Int)) := by
  simp only [triposr_body] at h
  repeat' split at h
  all_goals
    first
      | (replace h := Except.ok.inj h
         subst h
         first
           | exact Or.inl ⟨rfl, rfl⟩
           | exact Or.inr ⟨_, _, _, by assumption, rfl, rfl⟩)
      | simp at h

/-- Helper: the same dichotomy for the SF3D body. -/
theorem sf3d_body_ok_lookups (env : Sf3dEnv) (ev : Sf3dRequest)
    (d : PyDict) (h : (sf3d_body env ev).1 = .ok d) :
    (d.lookup "model_base64" = none ∧ d.lookup "file_size" = none) ∨
    ∃ mesh bs, env.export_read mesh = .ok bs ∧
      d.lookup "model_base64" = some (.vascii (b64encode bs)) ∧
      d.lookup "file_size" = some (.vint (bs.length : Int)) := by
  simp only [sf3d_body] at h
  repeat' split at h
  all_goals
    first
      | (replace h := Except.ok.inj h
         subst h
         first
           | exact Or.inl ⟨rfl, rfl⟩
           | exact Or.inr ⟨_, _, by assumption, rfl, rfl⟩)
      | simp at h

/-- Helper: `hunyuan_finish` only succeeds with the dict built from one
exported file. -/
theorem hunyuan_finish_ok_lookups (env : HunyuanEnv) (gt : Bool)
    (preT : List HunyuanCall) (mesh : Mesh) (d : PyDict)
    (h : (hunyuan_finish env gt preT mesh).1 = .ok d) :
    ∃ bs, env.export_read mesh = .ok bs ∧
      d.lookup "model_base64" = some (.vascii (b64encode bs)) ∧
      d.lookup "file_size" = some (.vint (bs.length : Int)) := by
  unfold hunyuan_finish at h
  repeat' split at h
  all_goals
    first
      | (replace h := Except.ok.inj h
         subst h
         exact ⟨_, by assumption, rfl, rfl⟩)
      | simp at h

/-- Helper: the paint step passes the export dichotomy through. -/
theorem hunyuan_paint_step_ok_lookups (env : HunyuanEnv) (gt : Bool)
    (preT : List HunyuanCall) (pp : Option PaintPipe) (mesh0 : Mesh)
    (image : PImage) (d : PyDict)
    (h : (hunyuan_paint_step env gt preT pp mesh0 image).1 = .ok d) :
    ∃ mesh bs, env.export_read mesh = .ok bs ∧
      d.lookup "model_base64" = some (.vascii (b64encode bs)) ∧
      d.lookup "file_size" = some (.vint (bs.length : Int)) := by
  unfold hunyuan_paint_step at h
  repeat' split at h
  all_goals
    first
      | simp at h
      | (obtain ⟨bs, hexp, h1, h2⟩ := hunyuan_finish_ok_lookups _ _ _ _ _ h
         exact ⟨_, _, hexp, h1, h2⟩)

/-- Helper: the tail from model loading onward passes the export dichotomy
through. -/
theorem hunyuan_rest_ok_lookups (env : HunyuanEnv) (gt : Bool)
    (profile : Int) (image : PImage) (img : String)
    (bgT : List HunyuanCall) (d : PyDict)
    (h : (hunyuan_rest env gt profile image img bgT).1 = .ok d) :
    ∃ mesh bs, env.export_read mesh = .ok bs ∧
      d.lookup "model_base64" = some (.vascii (b64encode bs)) ∧
      d.lookup "file_size" = some (.vint (bs.length : Int)) := by
  unfold hunyuan_rest at h
  repeat' split at h
  all_goals
    first
      | exact hunyuan_paint_step_ok_lookups _ _ _ _ _ _ _ h
      | simp at h

/-- Helper: the dichotomy for the Hunyuan3D body. -/
theorem hunyuan_body_ok_lookups (env : HunyuanEnv) (ev : HunyuanRequest)
    (d : PyDict) (h : (hunyuan_body env ev).1 = .ok d) :
    (d.lookup "model_base64" = none ∧ d.lookup "file_size" = none) ∨
    ∃ mesh bs, env.export_read mesh = .ok bs ∧
      d.lookup "model_base64" = some (.vascii (b64encode bs)) ∧
      d.lookup "file_size" = some (.vint (bs.length : Int)) := by
  simp only [hunyuan_body] at h
  repeat' split at h
  all_goals
    first
      | (replace h := Except.ok.inj h
         subst h
         exact Or.inl ⟨rfl, rfl⟩)
      | exact Or.inr (hunyuan_rest_ok_lookups _ _ _ _ _ _ _ h)
      | simp at h

/-- A key is not found in a one-entry dict with a different key. -/
theorem lookup_singleton_ne (k k' : String) (v : PyVal)
    (h : (k == k') = false) :
    List.lookup k ([(k', v)] : PyDict) = none := by
  simp [List.lookup, h]

/-- C9: for every successful response of any of the three handlers (one
whose dict carries `model_base64` and `file_size`), base64-decoding the
`model_base64` value yields exactly the byte string that the export/read
step produced for some exported mesh, and `file_size` equals the length
of that same byte string — both fields are computed from the one exported
byte string.  The hypotheses state that the external file reads return
bytes (values `< 256`), which `f.read()` guarantees. -/
theorem c9_base64_and_file_size
    (envT : TriposrEnv) (evT : TriposrRequest)
    (hT : ∀ m f bs, envT.export_read m f = .ok bs → ∀ x ∈ bs, x < 256)
    (envS : Sf3dEnv) (evS : Sf3dRequest)
    (hS : ∀ m bs, envS.export_read m = .ok bs → ∀ x ∈ bs, x < 256)
    (envH : HunyuanEnv) (evH : HunyuanRequest)
    (hH : ∀ m bs, envH.export_read m = .ok bs → ∀ x ∈ bs, x < 256) :
    (∀ b n,
       (triposr_handler envT evT).lookup "model_base64" = some (.vascii b) →
       (triposr_handler envT evT).lookup "file_size" = some (.vint n) →
       ∃ mesh fmt data, envT.export_read mesh fmt = .ok data ∧
         b = b64encode data ∧ b64decode b = some data ∧
         n = (data.length : Int)) ∧
    (∀ b n,
       (sf3d_handler envS evS).lookup "model_base64" = some (.vascii b) →
       (sf3d_handler envS evS).lookup "file_size" = some (.vint n) →
       ∃ mesh data, envS.export_read mesh = .ok data ∧
         b = b64encode data ∧ b64decode b = some data ∧
         n = (data.length : Int)) ∧
    (∀ b n,
       (hunyuan_handler envH evH).lookup "model_base64" = some (.vascii b) →
       (hunyuan_handler envH evH).lookup "file_size" = some (.vint n) →
       ∃ mesh data, envH.export_read mesh = .ok data ∧
         b = b64encode data ∧ b64decode b = some data ∧
         n = (data.length : Int)) := by
  refine ⟨?_, ?_, ?_⟩
  · intro b n hb hn
    rcases hbody : (triposr_body envT evT).1 with e | d
    · have hh : triposr_handler envT evT =
          [("error", .vstr ((match e with
            | .cudaOOM _ => "GPU out of memory. Try a lower resolution (128 or 256)."
            | .other m => "Generation failed: " ++ m) : String))] := by
        cases e <;> simp [triposr_handler, hbody]
      rw [hh, lookup_singleton_ne "model_base64" "error" _ rfl] at hb
      exact Option.noConfusion hb
    · have hh : triposr_handler envT evT = d := by
        simp [triposr_handler, hbody]
      rw [hh] at hb hn
      rcases triposr_body_ok_lookups envT evT d hbody with
        ⟨h1, h2⟩ | ⟨mesh, fmt, bs, hexp, h1, h2⟩
      · rw [h1] at hb
        exact Option.noConfusion hb
      · rw [h1] at hb
        rw [h2] at hn
        obtain rfl : b64encode bs = b := PyVal.vascii.inj (Option.some.inj hb)
        obtain rfl : ((bs.length : Int)) = n := PyVal.vint.inj (Option.some.inj hn)
        exact ⟨mesh, fmt, bs, hexp, rfl, b64decode_b64encode bs (hT _ _ _ hexp), rfl⟩
  · intro b n hb hn
    rcases hbody : (sf3d_body envS evS).1 with e | d
    · have hh : sf3d_handler envS evS =
          [("error", .vstr (if pyInStr "out of memory" (pyLower (PyExn.str e))
            then "GPU out of memory. Try a lower texture_resolution (512 or 1024)."
            else "Generation failed: " ++ PyExn.str e))] := by
        simp only [sf3d_handler, hbody]
        split <;> rfl
      rw [hh, lookup_singleton_ne "model_base64" "error" _ rfl] at hb
      exact Option.noConfusion hb
    · have hh : sf3d_handler envS evS = d := by
        simp [sf3d_handler, hbody]
      rw [hh] at hb hn
      rcases sf3d_body_ok_lookups envS evS d hbody with
        ⟨h1, h2⟩ | ⟨mesh, bs, hexp, h1, h2⟩
      · rw [h1] at hb
        exact Option.noConfusion hb
      · rw [h1] at hb
        rw [h2] at hn
        obtain rfl : b64encode bs = b := PyVal.vascii.inj (Option.some.inj hb)
        obtain rfl : ((bs.length : Int)) = n := PyVal.vint.inj (Option.some.inj hn)
        exact ⟨mesh, bs, hexp, rfl, b64decode_b64encode bs (hS _ _ hexp), rfl⟩
  · intro b n hb hn
    rcases hbody : (hunyuan_body envH evH).1 with e | d
    · have hh : hunyuan_handler envH evH =
          [("error", .vstr (if pyInStr "out of memory" (pyLower (PyExn.str e))
            then "GPU out of memory. Try increasing the memory profile (3-5)."
            else "Generation failed: " ++ PyExn.str e))] := by
        simp only [hunyuan_handler, hbody]
        split <;> rfl
      rw [hh, lookup_singleton_ne "model_base64" "error" _ rfl] at hb
      exact Option.noConfusion hb
    · have hh : hunyuan_handler envH evH = d := by
        simp [hunyuan_handler, hbody]
      rw [hh] at hb hn
      rcases hunyuan_body_ok_lookups envH evH d hbody with
        ⟨h1, h2⟩ | ⟨mesh, bs, hexp, h1, h2⟩
      · rw [h1] at hb
        exact Option.noConfusion hb
      · rw [h1] at hb
        rw [h2] at hn
        obtain rfl : b64encode bs = b := PyVal.vascii.inj (Option.some.inj hb)
        obtain rfl : ((bs.length : Int)) = n := PyVal.vint.inj (Option.some.inj hn)
        exact ⟨mesh, bs, hexp, rfl, b64decode_b64encode bs (hH _ _ hexp), rfl⟩

/-- Witness for C9: a concrete successful TripoSR run whose exported file
is the three bytes `[0, 1, 2]` — the response's base64 encodes exactly
the bytes some export/read produced, decoding recovers them, and
`file_size` is 3. -/
theorem c9_base64_and_file_size_witness :
    ∃ mesh fmt data, envT0.export_read mesh fmt = .ok data ∧
      b64encode bytes0 = b64encode data ∧
      b64decode (b64encode bytes0) = some data ∧
      (3 : Int) = (data.length : Int) := by
  have hT : ∀ m f bs, envT0.export_read m f = .ok bs → ∀ x ∈ bs, x < 256 := by
    intro m f bs h
    injection h with h'
    subst h'
    decide
  have hS : ∀ m bs, envS0.export_read m = .ok bs → ∀ x ∈ bs, x < 256 := by
    intro m bs h
    injection h with h'
    subst h'
    decide
  have hH : ∀ m bs, envH0.export_read m = .ok bs → ∀ x ∈ bs, x < 256 := by
    intro m bs h
    injection h with h'
    subst h'
    decide
  have hb : (triposr_handler envT0 reqT_ok).lookup "model_base64" =
      some (.vascii (b64encode bytes0)) := by
    simp +decide [triposr_handler, triposr_body, envT0, reqT_ok, pyLower_glb,
      img0, img1, mesh0, List.lookup] <;> norm_num
  have hn : (triposr_handler envT0 reqT_ok).lookup "file_size" =
      some (.vint 3) := by
    simp +decide [triposr_handler, triposr_body, envT0, reqT_ok, pyLower_glb,
      bytes0, img0, img1, mesh0, List.lookup] <;> norm_num
  exact (c9_base64_and_file_size envT0 reqT_ok hT envS0 reqS_ok hS
    envH0 reqH_ok hH).1 (b64encode bytes0) 3 hb hn
